import Mathlib

/-!
# 3D data visualization: the point pipeline and the interaction state of `src/App.js`

A shallow embedding of the `Visualization` component of `src/App.js`:

* the point records delivered by `fetchData` (`mockData`),
* `clusterDataPoints` and the `clusteredData` / `filteredData` chain,
* the `window.*` command setters, `resetCamera`, `zoomToDataPoint` and the click handler of a
  rendered `DataPoint`,
* the geometry element chosen by the `DataPoint` component.

Modelling conventions.

* JavaScript numbers are exact rationals (`ℚ`): no rounding, no `NaN`, no infinities.
  Statements about shifted coordinates are written with the additions the code performs
  (`x + 1 + 1`, not `x + 2`), so that they do not depend on a law that rounding breaks.
* The `type` string of a point takes the two values that occur in the source, `"sphere"` and
  `"bar"`; the `filter` state is `null` or one of these two strings.
* A `position` array has three entries, as in every record of `mockData`.
* `height` is optional, as in `mockData` (the sphere records carry no `height`).
* `parseFloat` is a library function; the setters that call it take it as a parameter.
* The `OrbitControls` object behind `orbitControlsRef` is a library object; it is represented by
  the trace of the method calls it has received. `orbitControlsRef.current` is `undefined` until
  the controls are mounted, which is `none` here.
* A handler that can throw returns the state it leaves behind together with the error, if any
  (a JavaScript exception does not undo the state updates made before it).
-/

namespace App

/-- The two values of the `type` field of a point record. -/
inductive Kind where
  | sphere
  | bar
  deriving DecidableEq, Repr

/-- A `position` array `[x, y, z]`. -/
structure Position where
  x : ℚ
  y : ℚ
  z : ℚ
  deriving DecidableEq

/-- A point record as resolved by `fetchData`. -/
structure DataPoint where
  id : ℕ
  position : Position
  size : ℚ
  color : ℚ
  label : String
  type : Kind
  height : Option ℚ
  deriving DecidableEq

/-- A method call received by the `OrbitControls` object. -/
inductive ControlsCall where
  | reset
  | targetSet (position : Position)
  | update
  deriving DecidableEq

/-- The `OrbitControls` object, as the trace of calls it has received (oldest first). -/
structure OrbitControls where
  calls : List ControlsCall
  deriving DecidableEq

/-- Errors thrown by the handlers. -/
inductive JSError where
  | typeError
  deriving DecidableEq

/-- The state held by the `Visualization` component: its `useState` cells and its ref. -/
structure Visualization where
  data : List DataPoint
  filter : Option Kind
  minSize : ℚ
  maxSize : ℚ
  minColor : ℚ
  maxColor : ℚ
  clustering : Bool
  selectedPoint : Option DataPoint
  orbitControlsRef : Option OrbitControls
  deriving DecidableEq

/-- What a handler leaves behind: the state after it ran and the error it threw, if any. -/
structure Outcome where
  state : Visualization
  error : Option JSError
  deriving DecidableEq

/-- The initial values of the `useState` cells and of `useRef()`. -/
def initialState : Visualization :=
  { data := []
    filter := none
    minSize := 1 / 10
    maxSize := 3 / 2
    minColor := 0
    maxColor := 360
    clustering := false
    selectedPoint := none
    orbitControlsRef := none }

/-- The first record of `mockData`, "Point A". -/
def pointA : DataPoint :=
  { id := 1, position := ⟨1, 2, 3⟩, size := 4 / 10, color := 10, label := "Point A",
    type := Kind.sphere, height := none }

/-- The second record of `mockData`, "Point B". -/
def pointB : DataPoint :=
  { id := 2, position := ⟨-2, 1, -1⟩, size := 6 / 10, color := 50, label := "Point B",
    type := Kind.bar, height := some 2 }

/-- The third record of `mockData`, "Point C". -/
def pointC : DataPoint :=
  { id := 3, position := ⟨2, -1, -2⟩, size := 3 / 10, color := 90, label := "Point C",
    type := Kind.sphere, height := none }

/-- The fourth record of `mockData`, "Point D". -/
def pointD : DataPoint :=
  { id := 4, position := ⟨3, 0, -3⟩, size := 8 / 10, color := 120, label := "Point D",
    type := Kind.bar, height := some 3 }

/-- The array resolved by the simulated API call in `fetchData`. -/
def mockData : List DataPoint :=
  [pointA, pointB, pointC, pointD]

/-- The state update `setData(mockData)` of `fetchData`: the resolved array replaces `data`. -/
def setData (raw : List DataPoint) (s : Visualization) : Visualization :=
  { s with data := raw }

/-- The body of the `map` callback of `clusterDataPoints`:
`{...point, position: [point.position[0] + (index % 2 === 0 ? 1 : -1), ...point.position.slice(1)]}`. -/
def clusterPoint (index : ℕ) (point : DataPoint) : DataPoint :=
  { point with
    position :=
      { x := point.position.x + (if index % 2 = 0 then 1 else -1)
        y := point.position.y
        z := point.position.z } }

/-- The function `clusterDataPoints(data)`: `data.map((point, index) => ...)`. -/
def clusterDataPoints (data : List DataPoint) : List DataPoint :=
  data.mapIdx clusterPoint

/-- The value `clusteredData`: `clustering ? clusterDataPoints(data) : data`. -/
def clusteredData (s : Visualization) : List DataPoint :=
  if s.clustering then clusterDataPoints s.data else s.data

/-- The three chained `.filter` calls of `filteredData`, on an arbitrary array. -/
def filterChain (points : List DataPoint) (filter : Option Kind)
    (minSize maxSize minColor maxColor : ℚ) : List DataPoint :=
  ((points.filter
      (fun point => match filter with
        | some k => decide (point.type = k)
        | none => true)).filter
      (fun point => decide (point.size ≥ minSize) && decide (point.size ≤ maxSize))).filter
      (fun point => decide (point.color ≥ minColor) && decide (point.color ≤ maxColor))

/-- The value `filteredData`: the filter chain applied to `clusteredData`. -/
def filteredData (s : Visualization) : List DataPoint :=
  filterChain (clusteredData s) s.filter s.minSize s.maxSize s.minColor s.maxColor

/-- The setter `window.updateFilter = (type) => setFilter(type)`. -/
def updateFilter (type : Option Kind) (s : Visualization) : Visualization :=
  { s with filter := type }

/-- The setter `window.updateMinSize = (size) => setMinSize(parseFloat(size))`. -/
def updateMinSize (parseFloat : String → ℚ) (size : String) (s : Visualization) :
    Visualization :=
  { s with minSize := parseFloat size }

/-- The setter `window.updateMaxSize = (size) => setMaxSize(parseFloat(size))`. -/
def updateMaxSize (parseFloat : String → ℚ) (size : String) (s : Visualization) :
    Visualization :=
  { s with maxSize := parseFloat size }

/-- The setter `window.updateMinColor = (color) => setMinColor(parseFloat(color))`. -/
def updateMinColor (parseFloat : String → ℚ) (color : String) (s : Visualization) :
    Visualization :=
  { s with minColor := parseFloat color }

/-- The setter `window.updateMaxColor = (color) => setMaxColor(parseFloat(color))`. -/
def updateMaxColor (parseFloat : String → ℚ) (color : String) (s : Visualization) :
    Visualization :=
  { s with maxColor := parseFloat color }

/-- The setter `window.toggleClustering = () => setClustering(!clustering)`. -/
def toggleClustering (s : Visualization) : Visualization :=
  { s with clustering := !s.clustering }

/-- The handler `window.resetCamera`: `const controls = orbitControlsRef.current; controls.reset();`.
Calling a method on `undefined` throws a `TypeError`. -/
def resetCamera (s : Visualization) : Outcome :=
  match s.orbitControlsRef with
  | none => { state := s, error := some JSError.typeError }
  | some controls =>
    { state := { s with orbitControlsRef := some { calls := controls.calls ++ [ControlsCall.reset] } }
      error := none }

/-- The function `zoomToDataPoint`:
`const controls = orbitControlsRef.current; controls.target.set(...position); controls.update();`.
Reading `target` of `undefined` throws a `TypeError`. -/
def zoomToDataPoint (position : Position) (s : Visualization) : Outcome :=
  match s.orbitControlsRef with
  | none => { state := s, error := some JSError.typeError }
  | some controls =>
    { state :=
        { s with
          orbitControlsRef :=
            some { calls := controls.calls ++ [ControlsCall.targetSet position, ControlsCall.update] } }
      error := none }

/-- The state update `setSelectedPoint(point)`. -/
def setSelectedPoint (point : DataPoint) (s : Visualization) : Visualization :=
  { s with selectedPoint := some point }

/-- The `onClick` handler passed to the `DataPoint` rendered for `point`:
`setSelectedPoint(point); zoomToDataPoint(point.position);`. -/
def onClick (point : DataPoint) (s : Visualization) : Outcome :=
  zoomToDataPoint point.position (setSelectedPoint point s)

/-- The geometry element a `DataPoint` component puts in its mesh, with its `args` array. -/
inductive Geometry where
  | sphereGeometry (radius : ℚ) (widthSegments heightSegments : ℕ)
  | boxGeometry (width : ℚ) (height : Option ℚ) (depth : ℚ)
  deriving DecidableEq

/-- The choice made by the `DataPoint` component:
`data.type === "sphere" ? <sphereGeometry args={[data.size, 32, 32]} />
                        : <boxGeometry args={[data.size, data.height, data.size]} />`. -/
def geometry (data : DataPoint) : Geometry :=
  if data.type = Kind.sphere then Geometry.sphereGeometry data.size 32 32
  else Geometry.boxGeometry data.size data.height data.size

/-- The kind of primitive a geometry element stands for. -/
def Geometry.kind : Geometry → Kind
  | Geometry.sphereGeometry _ _ _ => Kind.sphere
  | Geometry.boxGeometry _ _ _ => Kind.bar

/-- The `args` array of a geometry element; an `undefined` entry is `none`. -/
def Geometry.args : Geometry → List (Option ℚ)
  | Geometry.sphereGeometry radius widthSegments heightSegments =>
    [some radius, some (widthSegments : ℚ), some (heightSegments : ℚ)]
  | Geometry.boxGeometry width height depth => [some width, height, some depth]

/-- The commands the control panel issues through the `window` setters. -/
inductive Command where
  | setCategoryFilter (type : Option Kind)
  | setMinSize (v : String)
  | setMaxSize (v : String)
  | setMinColor (v : String)
  | setMaxColor (v : String)
  | toggleClustering
  | resetCamera

/-- The part of the state a command writes. -/
inductive Field where
  | filter
  | minSize
  | maxSize
  | minColor
  | maxColor
  | clustering
  | camera
  deriving DecidableEq

/-- The field written by each command. -/
def Command.field : Command → Field
  | Command.setCategoryFilter _ => Field.filter
  | Command.setMinSize _ => Field.minSize
  | Command.setMaxSize _ => Field.maxSize
  | Command.setMinColor _ => Field.minColor
  | Command.setMaxColor _ => Field.maxColor
  | Command.toggleClustering => Field.clustering
  | Command.resetCamera => Field.camera

/-- The state left by a command: each command calls its `window` function. -/
def Command.run (parseFloat : String → ℚ) : Command → Visualization → Visualization
  | Command.setCategoryFilter type, s => updateFilter type s
  | Command.setMinSize v, s => updateMinSize parseFloat v s
  | Command.setMaxSize v, s => updateMaxSize parseFloat v s
  | Command.setMinColor v, s => updateMinColor parseFloat v s
  | Command.setMaxColor v, s => updateMaxColor parseFloat v s
  | Command.toggleClustering, s => App.toggleClustering s
  | Command.resetCamera, s => (App.resetCamera s).state

/-- The predicate of the filter chain, as the specification words it: the category matches or
no category is set, and size and color lie within their inclusive ranges. -/
def Retained (filter : Option Kind) (minSize maxSize minColor maxColor : ℚ)
    (p : DataPoint) : Prop :=
  (filter = none ∨ filter = some p.type) ∧
    (minSize ≤ p.size ∧ p.size ≤ maxSize) ∧ (minColor ≤ p.color ∧ p.color ≤ maxColor)

instance (filter : Option Kind) (minSize maxSize minColor maxColor : ℚ) (p : DataPoint) :
    Decidable (Retained filter minSize maxSize minColor maxColor p) := by
  unfold Retained
  exact inferInstance

/-- Every part of the state other than field `f` is the same in `t` as in `s`. The point set
and the selection belong to no command of the control panel. -/
def UnchangedOutside (f : Field) (s t : Visualization) : Prop :=
  (f ≠ Field.filter → t.filter = s.filter) ∧
  (f ≠ Field.minSize → t.minSize = s.minSize) ∧
  (f ≠ Field.maxSize → t.maxSize = s.maxSize) ∧
  (f ≠ Field.minColor → t.minColor = s.minColor) ∧
  (f ≠ Field.maxColor → t.maxColor = s.maxColor) ∧
  (f ≠ Field.clustering → t.clustering = s.clustering) ∧
  (f ≠ Field.camera → t.orbitControlsRef = s.orbitControlsRef) ∧
  t.data = s.data ∧ t.selectedPoint = s.selectedPoint

/-- A raw bar record that carries no `height`. -/
def barWithoutHeight : DataPoint :=
  { id := 5, position := ⟨0, 0, 0⟩, size := 6 / 10, color := 50, label := "Point E",
    type := Kind.bar, height := none }

/-- A raw bar record whose `height` is zero. -/
def barWithZeroHeight : DataPoint :=
  { id := 6, position := ⟨1, 1, 1⟩, size := 6 / 10, color := 50, label := "Point F",
    type := Kind.bar, height := some 0 }

/-! ## Helper lemmas -/

theorem filterChain_eq_filter (P : List DataPoint) (filter : Option Kind)
    (minSize maxSize minColor maxColor : ℚ) :
    filterChain P filter minSize maxSize minColor maxColor =
      P.filter (fun p => decide (Retained filter minSize maxSize minColor maxColor p)) := by
  unfold filterChain
  rw [List.filter_filter, List.filter_filter]
  apply List.filter_congr
  intro p _
  rw [Bool.eq_iff_iff]
  cases filter with
  | none => simp [Retained]; tauto
  | some k =>
    have hk : k = p.type ↔ p.type = k := eq_comm
    simp [Retained, hk]; tauto

theorem mem_filterChain (P : List DataPoint) (filter : Option Kind)
    (minSize maxSize minColor maxColor : ℚ) (p : DataPoint) :
    p ∈ filterChain P filter minSize maxSize minColor maxColor ↔
      p ∈ P ∧ Retained filter minSize maxSize minColor maxColor p := by
  rw [filterChain_eq_filter]
  simp

theorem retained_clusterPoint (filter : Option Kind) (minSize maxSize minColor maxColor : ℚ)
    (i : ℕ) (p : DataPoint) :
    Retained filter minSize maxSize minColor maxColor (clusterPoint i p) ↔
      Retained filter minSize maxSize minColor maxColor p := by
  simp [Retained, clusterPoint]

theorem getElem?_clusterDataPoints (P : List DataPoint) (i : ℕ) :
    (clusterDataPoints P)[i]? = Option.map (clusterPoint i) P[i]? := by
  simp [clusterDataPoints]

/-! ## The filter chain -/

/-- C1: for every point sequence and all filter parameters, a point is in the output of the
filter chain exactly when it is in the input, its kind matches the category (or no category is
set), and its size and color lie within their ranges, both bounds inclusive. The same holds for
the `filteredData` of every component state, relative to `clusteredData`. The output is a
sub-sequence of the input, and a point whose size equals `maxSize` exactly (and which passes the
other predicates) is retained. With `minSize = 0.5` the mock points A and C are excluded whatever
the category and the other bounds. -/
theorem filterChain_retains_iff (P : List DataPoint) (filter : Option Kind)
    (minSize maxSize minColor maxColor : ℚ) :
    (∀ p, p ∈ filterChain P filter minSize maxSize minColor maxColor ↔
        p ∈ P ∧ (filter = none ∨ filter = some p.type) ∧
          (minSize ≤ p.size ∧ p.size ≤ maxSize) ∧ (minColor ≤ p.color ∧ p.color ≤ maxColor)) ∧
    (∀ s p, p ∈ filteredData s ↔
        p ∈ clusteredData s ∧ (s.filter = none ∨ s.filter = some p.type) ∧
          (s.minSize ≤ p.size ∧ p.size ≤ s.maxSize) ∧
          (s.minColor ≤ p.color ∧ p.color ≤ s.maxColor)) ∧
    List.Sublist (filterChain P filter minSize maxSize minColor maxColor) P ∧
    (∀ p, p ∈ P → (filter = none ∨ filter = some p.type) → minSize ≤ p.size →
        p.size = maxSize → minColor ≤ p.color → p.color ≤ maxColor →
        p ∈ filterChain P filter minSize maxSize minColor maxColor) ∧
    (pointA ∉ filterChain mockData filter (1 / 2) maxSize minColor maxColor ∧
      pointC ∉ filterChain mockData filter (1 / 2) maxSize minColor maxColor) := by
  refine ⟨fun p => mem_filterChain P filter minSize maxSize minColor maxColor p,
    fun s p => mem_filterChain _ _ _ _ _ _ p, ?_, ?_, ?_, ?_⟩
  · rw [filterChain_eq_filter]
    exact List.filter_sublist P
  · intro p hp hk hmin hmax hc1 hc2
    exact (mem_filterChain P filter minSize maxSize minColor maxColor p).2
      ⟨hp, hk, ⟨hmin, le_of_eq hmax⟩, hc1, hc2⟩
  · intro h
    have h1 := ((mem_filterChain _ _ _ _ _ _ _).1 h).2.2.1.1
    norm_num [pointA] at h1
  · intro h
    have h1 := ((mem_filterChain _ _ _ _ _ _ _).1 h).2.2.1.1
    norm_num [pointC] at h1

/-- C4: the filter chain is idempotent: filtering its own output again with the same parameters
returns that output. -/
theorem filterChain_idempotent (P : List DataPoint) (filter : Option Kind)
    (minSize maxSize minColor maxColor : ℚ) :
    filterChain (filterChain P filter minSize maxSize minColor maxColor)
        filter minSize maxSize minColor maxColor =
      filterChain P filter minSize maxSize minColor maxColor := by
  rw [filterChain_eq_filter (filterChain P filter minSize maxSize minColor maxColor),
    filterChain_eq_filter P, List.filter_filter]
  simp

/-! ## The cluster transform -/

/-- C2: `clusterDataPoints` returns a sequence of the same length; its element at index `i` is
the input element at `i` with `x + 1` when `i` is even and `x - 1` when `i` is odd, and with
`y`, `z`, `id`, `size`, `color`, `label`, `type` and `height` unchanged. On four points it
shifts the first and third by `+1` and the second and fourth by `-1`. -/
theorem clusterDataPoints_index_parity (P : List DataPoint) :
    (clusterDataPoints P).length = P.length ∧
    (∀ i p, P[i]? = some p → ∃ q, (clusterDataPoints P)[i]? = some q ∧
        (i % 2 = 0 → q.position.x = p.position.x + 1) ∧
        (i % 2 = 1 → q.position.x = p.position.x - 1) ∧
        q.position.y = p.position.y ∧ q.position.z = p.position.z ∧
        q.id = p.id ∧ q.size = p.size ∧ q.color = p.color ∧ q.label = p.label ∧
        q.type = p.type ∧ q.height = p.height) ∧
    (∀ p0 p1 p2 p3 : DataPoint, clusterDataPoints [p0, p1, p2, p3] =
        [ { p0 with position := ⟨p0.position.x + 1, p0.position.y, p0.position.z⟩ },
          { p1 with position := ⟨p1.position.x - 1, p1.position.y, p1.position.z⟩ },
          { p2 with position := ⟨p2.position.x + 1, p2.position.y, p2.position.z⟩ },
          { p3 with position := ⟨p3.position.x - 1, p3.position.y, p3.position.z⟩ } ]) := by
  refine ⟨by simp [clusterDataPoints], ?_, ?_⟩
  · intro i p hp
    refine ⟨clusterPoint i p, by rw [getElem?_clusterDataPoints, hp]; rfl, ?_, ?_,
      rfl, rfl, rfl, rfl, rfl, rfl, rfl, rfl⟩
    · intro h
      simp [clusterPoint, h]
    · intro h
      have h0 : ¬ i % 2 = 0 := by omega
      simp [clusterPoint, h0, sub_eq_add_neg]
  · intro p0 p1 p2 p3
    simp [clusterDataPoints, clusterPoint, sub_eq_add_neg]

/-- C9 (refuted as stated): on the mock data, clustering twice differs from clustering once. -/
theorem clusterDataPoints_not_idempotent :
    clusterDataPoints (clusterDataPoints mockData) ≠ clusterDataPoints mockData := by
  norm_num [clusterDataPoints, clusterPoint, mockData, pointA, pointB, pointC, pointD]

/-- C9 (amended): `clusterDataPoints` is not idempotent in general. Re-applying it to its own
output, in the same order, applies the index-parity shift a second time: the element at index
`i` of `cluster(cluster(P))` is the input element with `x` shifted twice, `(x + 1) + 1` when `i`
is even and `(x - 1) - 1` when `i` is odd, all other fields unchanged. Hence
`cluster(cluster(P)) = cluster(P)` holds exactly when the second shift leaves every
x-coordinate of `cluster(P)` as it is (as for the empty sequence). -/
theorem clusterDataPoints_twice (P : List DataPoint) :
    (clusterDataPoints (clusterDataPoints P)).length = P.length ∧
    (∀ i p, P[i]? = some p → ∃ q, (clusterDataPoints (clusterDataPoints P))[i]? = some q ∧
        (i % 2 = 0 → q.position.x = p.position.x + 1 + 1) ∧
        (i % 2 = 1 → q.position.x = p.position.x - 1 - 1) ∧
        q.position.y = p.position.y ∧ q.position.z = p.position.z ∧
        q.id = p.id ∧ q.size = p.size ∧ q.color = p.color ∧ q.label = p.label ∧
        q.type = p.type ∧ q.height = p.height) ∧
    (clusterDataPoints (clusterDataPoints P) = clusterDataPoints P ↔
      ∀ i p, P[i]? = some p →
        (i % 2 = 0 → p.position.x + 1 + 1 = p.position.x + 1) ∧
        (i % 2 = 1 → p.position.x - 1 - 1 = p.position.x - 1)) ∧
    clusterDataPoints (clusterDataPoints []) = clusterDataPoints [] := by
  refine ⟨by simp [clusterDataPoints], ?_, ?_, rfl⟩
  · intro i p hp
    refine ⟨clusterPoint i (clusterPoint i p), ?_, ?_, ?_, rfl, rfl, rfl, rfl, rfl, rfl, rfl, rfl⟩
    · rw [getElem?_clusterDataPoints, getElem?_clusterDataPoints, hp]; rfl
    · intro h
      simp only [clusterPoint, h, if_true]
    · intro h
      have h0 : ¬ i % 2 = 0 := by omega
      simp only [clusterPoint, h0, if_false, sub_eq_add_neg]
  · constructor
    · intro h i p hp
      have h1 := congrArg (fun l => Option.map (fun q => q.position.x) l[i]?) h
      simp only [getElem?_clusterDataPoints, hp, Option.map_some', Option.some.injEq] at h1
      constructor
      · intro hi
        simpa only [clusterPoint, hi, if_true] using h1
      · intro hi
        have h0 : ¬ i % 2 = 0 := by omega
        simpa only [clusterPoint, h0, if_false, sub_eq_add_neg] using h1
    · intro h
      apply List.ext_getElem?
      intro i
      rw [getElem?_clusterDataPoints, getElem?_clusterDataPoints]
      cases hp : P[i]? with
      | none => rfl
      | some p =>
        have hx : (clusterPoint i (clusterPoint i p)).position.x =
            (clusterPoint i p).position.x := by
          rcases Nat.mod_two_eq_zero_or_one i with hi | hi
          · simpa only [clusterPoint, hi, if_true] using (h i p hp).1 hi
          · have h0 : ¬ i % 2 = 0 := by omega
            simpa only [clusterPoint, h0, if_false, sub_eq_add_neg] using (h i p hp).2 hi
        have e : clusterPoint i (clusterPoint i p) = clusterPoint i p := by
          unfold clusterPoint at hx ⊢
          simp only at hx ⊢
          rw [hx]
        simp [e]

/-! ## Clustering before filtering -/

theorem filterChain_clusterDataPoints (P : List DataPoint) (filter : Option Kind)
    (minSize maxSize minColor maxColor : ℚ) :
    filterChain (clusterDataPoints P) filter minSize maxSize minColor maxColor =
      (P.enum.filter
        (fun ip => decide (Retained filter minSize maxSize minColor maxColor ip.2))).map
        (fun ip => clusterPoint ip.1 ip.2) := by
  rw [filterChain_eq_filter, clusterDataPoints, List.mapIdx_eq_enum_map, List.filter_map]
  have hf : ((fun p => decide (Retained filter minSize maxSize minColor maxColor p)) ∘
      Function.uncurry clusterPoint) =
      (fun ip : ℕ × DataPoint =>
        decide (Retained filter minSize maxSize minColor maxColor ip.2)) := by
    funext ip
    simp [Function.uncurry, retained_clusterPoint]
  rw [hf]
  rfl

theorem filter_enum_map_snd (P : List DataPoint) (q : DataPoint → Bool) :
    (P.enum.filter (fun ip => q ip.2)).map Prod.snd = P.filter q := by
  have h := List.filter_map (p := q) Prod.snd P.enum
  rw [List.enum_map_snd] at h
  rw [h]
  rfl

/-- C3: with clustering enabled the displayed set is the filter chain applied to the clustering
of the full point set. It consists of the points of `data` that pass the filter, in their order
in `data`, each shifted by the parity of its index in `data` (not of its index in the output);
so the retained ids and their order are those obtained with clustering disabled. On the mock
data with category `bar` and the default ranges the output is `[B, D]` without clustering and
`[B at (-3,1,-1), D at (2,0,-3)]` with clustering. -/
theorem filteredData_cluster_then_filter (s : Visualization) :
    filteredData { s with clustering := true } =
        filterChain (clusterDataPoints s.data) s.filter s.minSize s.maxSize s.minColor
          s.maxColor ∧
    filteredData { s with clustering := true } =
        (s.data.enum.filter
          (fun ip => decide (Retained s.filter s.minSize s.maxSize s.minColor s.maxColor ip.2))).map
          (fun ip => clusterPoint ip.1 ip.2) ∧
    (∀ q, q ∈ filteredData { s with clustering := true } ↔
        ∃ i p, s.data[i]? = some p ∧
          Retained s.filter s.minSize s.maxSize s.minColor s.maxColor p ∧
          q = clusterPoint i p) ∧
    (filteredData { s with clustering := true }).map (fun q => q.id) =
        (filteredData { s with clustering := false }).map (fun q => q.id) ∧
    filteredData { setData mockData initialState with filter := some Kind.bar } =
        [pointB, pointD] ∧
    filteredData
        { setData mockData initialState with filter := some Kind.bar, clustering := true } =
        [ { pointB with position := ⟨-3, 1, -1⟩ }, { pointD with position := ⟨2, 0, -3⟩ } ] := by
  have h2 := filterChain_clusterDataPoints s.data s.filter s.minSize s.maxSize s.minColor
    s.maxColor
  refine ⟨rfl, h2, ?_, ?_, ?_, ?_⟩
  · intro q
    have e : filteredData { s with clustering := true } =
        filterChain (clusterDataPoints s.data) s.filter s.minSize s.maxSize s.minColor
          s.maxColor := rfl
    rw [e, h2]
    simp only [List.mem_map, List.mem_filter, decide_eq_true_eq, Prod.exists,
      List.mk_mem_enum_iff_getElem?]
    constructor
    · rintro ⟨i, p, ⟨hp, hr⟩, rfl⟩
      exact ⟨i, p, hp, hr, rfl⟩
    · rintro ⟨i, p, hp, hr, rfl⟩
      exact ⟨i, p, ⟨hp, hr⟩, rfl⟩
  · have e1 : filteredData { s with clustering := true } =
        filterChain (clusterDataPoints s.data) s.filter s.minSize s.maxSize s.minColor
          s.maxColor := rfl
    have e2 : filteredData { s with clustering := false } =
        filterChain s.data s.filter s.minSize s.maxSize s.minColor s.maxColor := rfl
    rw [e1, e2, h2, filterChain_eq_filter, List.map_map,
      ← filter_enum_map_snd s.data, List.map_map]
    rfl
  · norm_num [filteredData, filterChain, clusteredData, setData, initialState, mockData,
      pointA, pointB, pointC, pointD, List.filter]
  · norm_num [filteredData, filterChain, clusteredData, clusterDataPoints, clusterPoint,
      setData, initialState, mockData, pointA, pointB, pointC, pointD, List.filter]

/-! ## Ingestion -/

/-- C5 (refuted as stated): a raw bar record without `height`, and one with `height` zero,
delivered by the data source are both stored in `data` and both in `filteredData` under the
initial parameters; each is rendered as a box whose `args` carry the `height` as delivered. -/
theorem bar_without_height_not_dropped :
    barWithoutHeight.type = Kind.bar ∧ barWithoutHeight.height = none ∧
    barWithZeroHeight.type = Kind.bar ∧ barWithZeroHeight.height = some 0 ∧
    (setData [barWithoutHeight, barWithZeroHeight] initialState).data =
      [barWithoutHeight, barWithZeroHeight] ∧
    filteredData (setData [barWithoutHeight, barWithZeroHeight] initialState) =
      [barWithoutHeight, barWithZeroHeight] ∧
    (geometry barWithoutHeight).args = [some (6 / 10), none, some (6 / 10)] ∧
    (geometry barWithZeroHeight).args = [some (6 / 10), some 0, some (6 / 10)] := by
  refine ⟨rfl, rfl, rfl, rfl, rfl, ?_, ?_, ?_⟩
  · norm_num [filteredData, filterChain, clusteredData, setData, initialState,
      barWithoutHeight, barWithZeroHeight, List.filter]
  · simp [geometry, Geometry.args, barWithoutHeight]
  · simp [geometry, Geometry.args, barWithZeroHeight]

/-- C5 (amended): ingestion validates nothing. `setData` stores the delivered sequence
unchanged, whatever the `height` of its bar records; every delivered point that passes the
filter predicates is in `filteredData` (as delivered when clustering is off, shifted by the
parity of its index when clustering is on); and a bar record is rendered as a box whose `args`
are its `size`, its `height` as delivered, and its `size`. -/
theorem setData_keeps_every_raw_point (raw : List DataPoint) (s : Visualization) :
    (setData raw s).data = raw ∧
    (∀ i p, raw[i]? = some p →
        Retained s.filter s.minSize s.maxSize s.minColor s.maxColor p →
        (s.clustering = false → p ∈ filteredData (setData raw s)) ∧
        (s.clustering = true → clusterPoint i p ∈ filteredData (setData raw s))) ∧
    (∀ p, p.type = Kind.bar →
        geometry p = Geometry.boxGeometry p.size p.height p.size) := by
  refine ⟨rfl, ?_, ?_⟩
  · intro i p hp hr
    constructor
    · intro hc
      have e : filteredData (setData raw s) =
          filterChain raw s.filter s.minSize s.maxSize s.minColor s.maxColor := by
        simp [filteredData, clusteredData, setData, hc]
      rw [e, mem_filterChain]
      exact ⟨List.getElem?_mem hp, hr⟩
    · intro hc
      have e : filteredData (setData raw s) =
          filterChain (clusterDataPoints raw) s.filter s.minSize s.maxSize s.minColor
            s.maxColor := by
        simp [filteredData, clusteredData, setData, hc]
      rw [e, mem_filterChain]
      refine ⟨?_, (retained_clusterPoint _ _ _ _ _ i p).2 hr⟩
      apply List.getElem?_mem (n := i)
      rw [getElem?_clusterDataPoints, hp]
      rfl
  · intro p hp
    simp [geometry, hp]

/-! ## Camera handlers -/

/-- C6 (refuted as stated): in the initial state, where `orbitControlsRef.current` is still
`undefined`, `resetCamera()` and `zoomToDataPoint([1, 2, 3])` both throw a `TypeError`. -/
theorem camera_handlers_throw_without_controls :
    initialState.orbitControlsRef = none ∧
    (resetCamera initialState).error = some JSError.typeError ∧
    (zoomToDataPoint ⟨1, 2, 3⟩ initialState).error = some JSError.typeError := by
  exact ⟨rfl, rfl, rfl⟩

/-- C6 (amended): when `orbitControlsRef.current` is absent, `resetCamera()` and
`zoomToDataPoint(position)`, for every position, throw a `TypeError` and leave the state
unchanged. -/
theorem camera_handlers_without_controls (s : Visualization)
    (h : s.orbitControlsRef = none) :
    resetCamera s = { state := s, error := some JSError.typeError } ∧
    ∀ position, zoomToDataPoint position s = { state := s, error := some JSError.typeError } := by
  constructor
  · simp [resetCamera, h]
  · intro position
    simp [zoomToDataPoint, h]

/-- The amended C6 statement applied to the initial state, whose ref is still empty. -/
theorem camera_handlers_without_controls_witness :
    initialState.orbitControlsRef = none ∧
    (resetCamera initialState = { state := initialState, error := some JSError.typeError } ∧
      ∀ position, zoomToDataPoint position initialState =
        { state := initialState, error := some JSError.typeError }) :=
  ⟨rfl, camera_handlers_without_controls initialState rfl⟩

/-! ## Selecting a point -/

/-- C7 (refuted as stated): in the state reached by `setData(mockData)` from the initial state,
"Point A" is an element of `filteredData`, yet `orbitControlsRef.current` is absent, so its click
handler throws a `TypeError` and no camera call is made; the selection is set all the same. -/
theorem onClick_without_controls_throws :
    pointA ∈ filteredData (setData mockData initialState) ∧
    (onClick pointA (setData mockData initialState)).error = some JSError.typeError ∧
    (onClick pointA (setData mockData initialState)).state.orbitControlsRef = none ∧
    (onClick pointA (setData mockData initialState)).state.selectedPoint = some pointA := by
  refine ⟨?_, rfl, rfl, rfl⟩
  norm_num [filteredData, filterChain, clusteredData, setData, initialState, mockData,
    pointA, pointB, pointC, pointD, List.filter]

/-- C7 (amended): for every displayed point `p` (an element of `filteredData`), the click handler
sets `selectedPoint` to `p` and changes neither the point set, nor a filter parameter, nor the
clustering flag. The position it passes on is the one of the displayed element: `p` is an
element of `data` when clustering is off, and the parity-shifted copy of an element of `data`
when it is on. When the orbit controls are mounted the handler completes without error and makes
exactly one focus call on them, `target.set` with `p.position` followed by `update`; when
`orbitControlsRef.current` is absent it throws a `TypeError` and makes no camera call. -/
theorem onClick_selects_and_focuses (s : Visualization) (p : DataPoint)
    (hp : p ∈ filteredData s) :
    (onClick p s).state.selectedPoint = some p ∧
    (s.clustering = false → p ∈ s.data) ∧
    (s.clustering = true → ∃ i q, s.data[i]? = some q ∧ p = clusterPoint i q) ∧
    (onClick p s).state.data = s.data ∧
    (onClick p s).state.filter = s.filter ∧
    (onClick p s).state.minSize = s.minSize ∧
    (onClick p s).state.maxSize = s.maxSize ∧
    (onClick p s).state.minColor = s.minColor ∧
    (onClick p s).state.maxColor = s.maxColor ∧
    (onClick p s).state.clustering = s.clustering ∧
    (∀ controls, s.orbitControlsRef = some controls →
      (onClick p s).error = none ∧
      (onClick p s).state.orbitControlsRef =
        some { calls :=
          controls.calls ++ [ControlsCall.targetSet p.position, ControlsCall.update] }) ∧
    (s.orbitControlsRef = none →
      (onClick p s).error = some JSError.typeError ∧
      (onClick p s).state.orbitControlsRef = none) := by
  have hmem := ((mem_filterChain _ _ _ _ _ _ p).1 hp).1
  have hframe : (onClick p s).state.selectedPoint = some p ∧
      (onClick p s).state.data = s.data ∧
      (onClick p s).state.filter = s.filter ∧
      (onClick p s).state.minSize = s.minSize ∧
      (onClick p s).state.maxSize = s.maxSize ∧
      (onClick p s).state.minColor = s.minColor ∧
      (onClick p s).state.maxColor = s.maxColor ∧
      (onClick p s).state.clustering = s.clustering := by
    cases hc : s.orbitControlsRef <;>
      simp [onClick, zoomToDataPoint, setSelectedPoint, hc]
  obtain ⟨h1, h2, h3, h4, h5, h6, h7, h8⟩ := hframe
  refine ⟨h1, ?_, ?_, h2, h3, h4, h5, h6, h7, h8, ?_, ?_⟩
  · intro h
    simpa [clusteredData, h] using hmem
  · intro h
    have hm : p ∈ clusterDataPoints s.data := by simpa [clusteredData, h] using hmem
    obtain ⟨i, hi⟩ := List.getElem?_of_mem hm
    rw [getElem?_clusterDataPoints] at hi
    cases hq : s.data[i]? with
    | none => simp [hq] at hi
    | some q =>
      rw [hq] at hi
      exact ⟨i, q, hq, (Option.some.inj hi).symm⟩
  · intro controls hc
    simp [onClick, zoomToDataPoint, setSelectedPoint, hc]
  · intro hc
    simp [onClick, zoomToDataPoint, setSelectedPoint, hc]

/-- The amended C7 statement applied to the mock data with category `bar`, clustering on and
freshly mounted controls: clicking the displayed copy of B selects it and focuses the camera on
`(-3, 1, -1)`. -/
theorem onClick_selects_and_focuses_witness :
    ({ pointB with position := ⟨-3, 1, -1⟩ } : DataPoint) ∈
      filteredData
        { setData mockData initialState with
          filter := some Kind.bar, clustering := true, orbitControlsRef := some { calls := [] } } ∧
    (onClick { pointB with position := ⟨-3, 1, -1⟩ }
      { setData mockData initialState with
        filter := some Kind.bar, clustering := true,
        orbitControlsRef := some { calls := [] } }).state.selectedPoint =
      some { pointB with position := ⟨-3, 1, -1⟩ } ∧
    (onClick { pointB with position := ⟨-3, 1, -1⟩ }
      { setData mockData initialState with
        filter := some Kind.bar, clustering := true,
        orbitControlsRef := some { calls := [] } }).state.orbitControlsRef =
      some { calls := [ControlsCall.targetSet ⟨-3, 1, -1⟩, ControlsCall.update] } := by
  have hp : ({ pointB with position := ⟨-3, 1, -1⟩ } : DataPoint) ∈
      filteredData
        { setData mockData initialState with
          filter := some Kind.bar, clustering := true,
          orbitControlsRef := some { calls := [] } } := by
    norm_num [filteredData, filterChain, clusteredData, clusterDataPoints, clusterPoint,
      setData, initialState, mockData, pointA, pointB, pointC, pointD, List.filter]
  have h := onClick_selects_and_focuses _ _ hp
  exact ⟨hp, h.1, (h.2.2.2.2.2.2.2.2.2.2.1 { calls := [] } rfl).2⟩

/-! ## Geometry of a rendered point -/

/-- C8 (refuted as stated): the sphere "Point A" of the mock data, of size `0.4`, is rendered
with `args = [0.4, 32, 32]`, not with `[0.4, 0.4, 0.4]`. -/
theorem sphere_args_not_size_triple :
    pointA.type = Kind.sphere ∧
    (geometry pointA).args = [some (4 / 10), some 32, some 32] ∧
    (geometry pointA).args ≠ [some pointA.size, some pointA.size, some pointA.size] := by
  refine ⟨rfl, ?_, ?_⟩
  · simp [geometry, Geometry.args, pointA]
  · norm_num [geometry, Geometry.args, pointA]

/-- C8 (amended): for every point the geometry handed to the renderer mirrors the kind; for a
bar it is a box with dimensions `(size, height, size)`; for a sphere it is a sphere of radius
`size` with 32 width segments and 32 height segments, i.e. `args = [size, 32, 32]`. -/
theorem geometry_mirrors_kind (p : DataPoint) :
    (geometry p).kind = p.type ∧
    (p.type = Kind.sphere →
        geometry p = Geometry.sphereGeometry p.size 32 32 ∧
        (geometry p).args = [some p.size, some 32, some 32]) ∧
    (p.type = Kind.bar →
        geometry p = Geometry.boxGeometry p.size p.height p.size ∧
        (geometry p).args = [some p.size, p.height, some p.size]) := by
  refine ⟨?_, ?_, ?_⟩
  · cases h : p.type <;> simp [geometry, Geometry.kind, h]
  · intro h
    simp [geometry, Geometry.args, h]
  · intro h
    simp [geometry, Geometry.args, h]

/-- The amended C8 statement applied to the bar "Point D" of the mock data. -/
theorem geometry_mirrors_kind_witness :
    (geometry pointD).kind = Kind.bar ∧
    geometry pointD = Geometry.boxGeometry (8 / 10) (some 3) (8 / 10) :=
  ⟨(geometry_mirrors_kind pointD).1, ((geometry_mirrors_kind pointD).2.2 rfl).1⟩

/-! ## Commands of the control panel -/

theorem run_unchangedOutside (parseFloat : String → ℚ) (c : Command) (s : Visualization) :
    UnchangedOutside c.field s (c.run parseFloat s) := by
  cases c
  case resetCamera =>
    cases h : s.orbitControlsRef <;>
      simp [UnchangedOutside, Command.run, Command.field, resetCamera, h]
  all_goals
    simp [UnchangedOutside, Command.run, Command.field, updateFilter, updateMinSize,
      updateMaxSize, updateMinColor, updateMaxColor, toggleClustering]

theorem run_comm (parseFloat : String → ℚ) (c₁ c₂ : Command) (s : Visualization)
    (h : c₁.field ≠ c₂.field) :
    c₁.run parseFloat (c₂.run parseFloat s) = c₂.run parseFloat (c₁.run parseFloat s) := by
  cases c₁ <;> cases c₂ <;>
    first
    | exact absurd rfl h
    | rfl
    | (cases hc : s.orbitControlsRef <;>
        simp [Command.run, resetCamera, updateFilter, updateMinSize, updateMaxSize,
          updateMinColor, updateMaxColor, toggleClustering, hc])

/-- C10: each command writes only its own field. `updateFilter`, `updateMinSize`,
`updateMaxSize`, `updateMinColor` and `updateMaxColor` overwrite their field with the given value
(the numeric ones with `parseFloat` of the given string); `toggleClustering` negates
`clustering`; `resetCamera` changes no filter parameter, nor the clustering flag, the point set
or the selection, and with mounted controls it sends them exactly one `reset`. Every command
leaves every part of the state other than its own field unchanged, so two commands on different
fields give the same state in either order. -/
theorem commands_write_only_their_field (parseFloat : String → ℚ) (s : Visualization) :
    (∀ type, (updateFilter type s).filter = type) ∧
    (∀ v, (updateMinSize parseFloat v s).minSize = parseFloat v) ∧
    (∀ v, (updateMaxSize parseFloat v s).maxSize = parseFloat v) ∧
    (∀ v, (updateMinColor parseFloat v s).minColor = parseFloat v) ∧
    (∀ v, (updateMaxColor parseFloat v s).maxColor = parseFloat v) ∧
    (toggleClustering s).clustering = !s.clustering ∧
    ((resetCamera s).state.filter = s.filter ∧ (resetCamera s).state.minSize = s.minSize ∧
      (resetCamera s).state.maxSize = s.maxSize ∧ (resetCamera s).state.minColor = s.minColor ∧
      (resetCamera s).state.maxColor = s.maxColor ∧
      (resetCamera s).state.clustering = s.clustering ∧
      (resetCamera s).state.selectedPoint = s.selectedPoint ∧
      (resetCamera s).state.data = s.data) ∧
    (∀ controls, s.orbitControlsRef = some controls →
      resetCamera s =
        { state :=
            { s with orbitControlsRef := some { calls := controls.calls ++ [ControlsCall.reset] } }
          error := none }) ∧
    (∀ c : Command, UnchangedOutside c.field s (c.run parseFloat s)) ∧
    (∀ c₁ c₂ : Command, c₁.field ≠ c₂.field →
      c₁.run parseFloat (c₂.run parseFloat s) = c₂.run parseFloat (c₁.run parseFloat s)) := by
  refine ⟨fun _ => rfl, fun _ => rfl, fun _ => rfl, fun _ => rfl, fun _ => rfl, rfl, ?_, ?_,
    fun c => run_unchangedOutside parseFloat c s, fun c₁ c₂ h => run_comm parseFloat c₁ c₂ s h⟩
  · cases h : s.orbitControlsRef <;> simp [resetCamera, h]
  · intro controls h
    simp [resetCamera, h]

/-- The C10 statement applied to the initial state: setting the minimum size and toggling
clustering commute. -/
theorem commands_write_only_their_field_witness :
    Command.field (Command.setMinSize "0.5") ≠ Command.field Command.toggleClustering ∧
    Command.run (fun _ => 1 / 2) (Command.setMinSize "0.5")
        (Command.run (fun _ => 1 / 2) Command.toggleClustering initialState) =
      Command.run (fun _ => 1 / 2) Command.toggleClustering
        (Command.run (fun _ => 1 / 2) (Command.setMinSize "0.5") initialState) :=
  ⟨by decide,
    (commands_write_only_their_field (fun _ => 1 / 2) initialState).2.2.2.2.2.2.2.2.2
      (Command.setMinSize "0.5") Command.toggleClustering (by decide)⟩

end App
